import Mathlib

/-!
# EasySwapSync `service` package: composition root

A shallow embedding of `src/EasySwapSync/service/service.go`: the constructor
`New` and the method `Service.Start`.

Conventions of the embedding.

* A Go `error` is `Option GoError`; `none` is the nil error.
* A Go pointer that may be nil is an `Option`; `none` is the nil pointer.
* The collaborators (`xkv`, `model`, `collectionfilter`, `ordermanager`,
  `chainclient`, `orderbookindexer`, `fmt`) live outside `service.go`.  A handle
  returned by one of their constructors is represented by the arguments the
  constructor was given, so two handles are equal exactly when they come from the
  same constructor call.  What the collaborators decide on their own (whether the
  chain client can be built, whether the preload succeeds, the numeric values of
  the chain constants) is a field of `Env`.
* Every call `service.go` makes to a collaborator is appended, with its
  arguments (and its receiver, for a method), to a list of `Call`s in program
  order.  A call is recorded when it is made; what a collaborator does inside a
  method that returns nothing is not part of `service.go`.
-/

namespace EasySwapSync

/-! ## Errors (`github.com/pkg/errors`) -/

/-- Non-nil Go error values: an error of a collaborator, or an error built by
`errors.Wrap`, which keeps its cause and prepends a message. -/
inductive GoError where
  | leaf (text : String)
  | withMessage (cause : GoError) (msg : String)
  deriving DecidableEq

namespace GoError

/-- The `Error()` string: `msg + ": " + cause.Error()` for a wrapped error. -/
def Error : GoError → String
  | leaf text => text
  | withMessage cause msg => msg ++ ": " ++ cause.Error

/-- The `Cause()` of an error built by `errors.Wrap`; a plain error has none. -/
def Cause : GoError → Option GoError
  | leaf _ => none
  | withMessage cause _ => some cause

end GoError

namespace errors

/-- The function `errors.Wrap(err, message)`: nil on a nil `err`, otherwise `err`
annotated with `message`. -/
def Wrap (err : Option GoError) (message : String) : Option GoError :=
  match err with
  | none => none
  | some e => some (GoError.withMessage e message)

end errors

/-! ## Configuration (`config.Config`, the fields `service.go` reads) -/

namespace config

/-- One element of `cfg.Kv.Redis`; `Typ` is the Go field `Type`. -/
structure KvRedis where
  Host : String
  Typ : String
  Pass : String
  deriving DecidableEq

/-- The field `cfg.Kv`. -/
structure Kv where
  Redis : List KvRedis
  deriving DecidableEq

/-- The field `cfg.DB`, handed unread to `model.NewDB`. -/
structure DBConf where
  raw : String
  deriving DecidableEq

/-- The field `cfg.ChainCfg`. -/
structure ChainCfg where
  Name : String
  ID : Int
  deriving DecidableEq

/-- The field `cfg.ProjectCfg`. -/
structure ProjectCfg where
  Name : String
  deriving DecidableEq

/-- The field `cfg.AnkrCfg`. -/
structure AnkrCfg where
  HttpsUrl : String
  ApiKey : String
  deriving DecidableEq

/-- The configuration `*config.Config`. -/
structure Config where
  Kv : Kv
  DB : DBConf
  ChainCfg : ChainCfg
  ProjectCfg : ProjectCfg
  AnkrCfg : AnkrCfg
  deriving DecidableEq

end config

/-! ## go-zero cache configuration -/

namespace redis

/-- The fields of `redis.RedisConf` that `New` sets; `Typ` is the Go field `Type`. -/
structure RedisConf where
  Host : String
  Typ : String
  Pass : String
  deriving DecidableEq

end redis

namespace cache

/-- The struct `cache.NodeConf`: an embedded `RedisConf` and a `Weight`. -/
structure NodeConf where
  RedisConf : redis.RedisConf
  Weight : Int
  deriving DecidableEq

end cache

namespace kv

/-- The slice type `kv.KvConf`. -/
abbrev KvConf := List cache.NodeConf

end kv

/-! ## Handles of the collaborators -/

/-- A `context.Context` value. -/
structure Context where
  ident : Nat
  deriving DecidableEq

namespace xkv

/-- The handle `*xkv.Store`. -/
structure Store where
  conf : kv.KvConf
  deriving DecidableEq

/-- The constructor `xkv.NewStore(kvConf)`. -/
def NewStore (c : kv.KvConf) : Store := { conf := c }

end xkv

namespace gorm

/-- The handle `*gorm.DB`. -/
structure DB where
  conf : config.DBConf
  deriving DecidableEq

end gorm

namespace model

/-- The constructor `model.NewDB(cfg.DB)`. -/
def NewDB (c : config.DBConf) : gorm.DB := { conf := c }

end model

namespace collectionfilter

/-- The handle `*collectionfilter.Filter`. -/
structure Filter where
  ctx : Context
  db : gorm.DB
  chain : String
  project : String
  deriving DecidableEq

/-- The constructor `collectionfilter.New(ctx, db, chain, project)`. -/
def New (ctx : Context) (db : gorm.DB) (chain project : String) : Filter :=
  { ctx := ctx, db := db, chain := chain, project := project }

end collectionfilter

namespace ordermanager

/-- The handle `*ordermanager.OrderManager`. -/
structure OrderManager where
  ctx : Context
  db : gorm.DB
  kvStore : xkv.Store
  chain : String
  project : String
  deriving DecidableEq

/-- The constructor `ordermanager.New(ctx, db, kvStore, chain, project)`. -/
def New (ctx : Context) (db : gorm.DB) (kvStore : xkv.Store) (chain project : String) :
    OrderManager :=
  { ctx := ctx, db := db, kvStore := kvStore, chain := chain, project := project }

end ordermanager

namespace chainclient

/-- A non-nil `chainclient.ChainClient`. -/
structure ChainClient where
  chainID : Int
  nodeUrl : String
  deriving DecidableEq

end chainclient

namespace orderbookindexer

/-- The handle `*orderbookindexer.Service`. -/
structure Service where
  ctx : Context
  cfg : config.Config
  db : gorm.DB
  kvStore : xkv.Store
  chainClient : Option chainclient.ChainClient
  chainId : Int
  chain : String
  orderManager : ordermanager.OrderManager
  deriving DecidableEq

/-- The constructor `orderbookindexer.New(ctx, cfg, db, xkv, chainClient, chainId,
chain, orderManager)`. -/
def New (ctx : Context) (cfg : config.Config) (db : gorm.DB) (kvStore : xkv.Store)
    (chainClient : Option chainclient.ChainClient) (chainId : Int) (chain : String)
    (orderManager : ordermanager.OrderManager) : Service :=
  { ctx := ctx, cfg := cfg, db := db, kvStore := kvStore, chainClient := chainClient,
    chainId := chainId, chain := chain, orderManager := orderManager }

end orderbookindexer

/-! ## What the collaborators decide -/

/-- The part of the world `service.go` cannot see: the chain constants of package
`chain`, the error `chainclient.New` returns for a chain id and an endpoint (`none`
when the client is built), and the error `PreloadCollections` returns. -/
structure Env where
  EthChainID : Int
  OptimismChainID : Int
  SepoliaChainID : Int
  chainclientErr : Int → String → Option GoError
  PreloadCollections : collectionfilter.Filter → Option GoError

/-- The conversion `int(x)` to Go's 64-bit `int`: the value modulo `2^64`, read as a
signed number. -/
def goInt (x : Int) : Int := (x + 2 ^ 63) % 2 ^ 64 - 2 ^ 63

namespace chainclient

/-- The call `chainclient.New(chainID, nodeUrl)`: a client and a nil error, or no
client and the error. -/
def New (env : Env) (chainID : Int) (nodeUrl : String) :
    Option ChainClient × Option GoError :=
  match env.chainclientErr chainID nodeUrl with
  | none => (some { chainID := chainID, nodeUrl := nodeUrl }, none)
  | some e => (none, some e)

end chainclient

/-! ## Calls made to the collaborators -/

/-- A call from `service.go` to a collaborator, with its arguments; a method call
carries its receiver. -/
inductive Call where
  | xkv_NewStore (c : kv.KvConf)
  | model_NewDB (c : config.DBConf)
  | collectionfilter_New (ctx : Context) (db : gorm.DB) (chain project : String)
  | ordermanager_New (ctx : Context) (db : gorm.DB) (kvStore : xkv.Store)
      (chain project : String)
  | fmt_Println (text : String)
  | chainclient_New (chainID : Int) (nodeUrl : String)
  | orderbookindexer_New (ctx : Context) (cfg : config.Config) (db : gorm.DB)
      (kvStore : xkv.Store) (chainClient : Option chainclient.ChainClient) (chainId : Int)
      (chain : String) (orderManager : ordermanager.OrderManager)
  | PreloadCollections (recv : collectionfilter.Filter)
  | orderbookIndexer_Start (recv : Option orderbookindexer.Service)
  | orderManager_Start (recv : ordermanager.OrderManager)
  deriving DecidableEq

namespace Call

/-- A `Start` call on the indexer or on the order manager. -/
def isStart : Call → Bool
  | orderbookIndexer_Start _ => true
  | orderManager_Start _ => true
  | _ => false

/-- A call to the indexer constructor. -/
def isIndexerNew : Call → Bool
  | orderbookindexer_New .. => true
  | _ => false

/-- A call that starts or preloads a subsystem. -/
def isLifecycle : Call → Bool
  | PreloadCollections _ => true
  | orderbookIndexer_Start _ => true
  | orderManager_Start _ => true
  | _ => false

/-- A `Start` call whose receiver exists, that is, one that launches a background
loop: the order manager's, or the indexer's when the indexer is present. -/
def launchesLoop : Call → Bool
  | orderbookIndexer_Start (some _) => true
  | orderManager_Start _ => true
  | _ => false

/-- The context argument of a constructor call that takes one. -/
def ctxArg : Call → Option Context
  | collectionfilter_New ctx .. => some ctx
  | ordermanager_New ctx .. => some ctx
  | orderbookindexer_New ctx .. => some ctx
  | _ => none

/-- The database-handle argument of a constructor call that takes one. -/
def dbArg : Call → Option gorm.DB
  | collectionfilter_New _ db .. => some db
  | ordermanager_New _ db .. => some db
  | orderbookindexer_New _ _ db .. => some db
  | _ => none

/-- The cache-handle argument of a constructor call that takes one. -/
def kvArg : Call → Option xkv.Store
  | ordermanager_New _ _ kvStore .. => some kvStore
  | orderbookindexer_New _ _ _ kvStore .. => some kvStore
  | _ => none

end Call

/-! ## The service -/

/-- A `sync.WaitGroup`: its outstanding count. -/
structure WaitGroup where
  counter : Int
  deriving DecidableEq

/-- The struct `Service`. -/
structure Service where
  ctx : Context
  config : config.Config
  kvStore : xkv.Store
  db : gorm.DB
  wg : WaitGroup
  collectionFilter : collectionfilter.Filter
  orderbookIndexer : Option orderbookindexer.Service
  orderManager : ordermanager.OrderManager
  deriving DecidableEq

/-- What a run of `New` produces: the returned pair, the collaborator calls made, and
the text written to standard output. -/
structure NewResult where
  svc : Option Service
  err : Option GoError
  calls : List Call
  stdout : String

/-- The loop of `New` over `cfg.Kv.Redis`: one `append` to `kvConf` per descriptor. -/
def buildKvConf (nodes : List config.KvRedis) : kv.KvConf :=
  nodes.foldl
    (fun kvConf con =>
      kvConf ++ [{ RedisConf := { Host := con.Host, Typ := con.Typ, Pass := con.Pass },
                   Weight := 2 }])
    []

/-- The case list of the `switch` in `New`: the chain id is `chain.EthChainID`,
`chain.OptimismChainID` or `chain.SepoliaChainID`. -/
def supportedChain (env : Env) (cfg : config.Config) : Prop :=
  cfg.ChainCfg.ID = env.EthChainID ∨ cfg.ChainCfg.ID = env.OptimismChainID ∨
    cfg.ChainCfg.ID = env.SepoliaChainID

instance instDecidableSupportedChain (env : Env) (cfg : config.Config) :
    Decidable (supportedChain env cfg) :=
  inferInstanceAs (Decidable (_ ∨ _ ∨ _))

/-- The collaborator calls `New` makes on lines 76 to 94, up to and including
`chainclient.New`, in program order. -/
def callsUpToClient (ctx : Context) (cfg : config.Config) : List Call :=
  let kvConf := buildKvConf cfg.Kv.Redis
  let kvStore := xkv.NewStore kvConf
  let db := model.NewDB cfg.DB
  [Call.xkv_NewStore kvConf,
   Call.model_NewDB cfg.DB,
   Call.collectionfilter_New ctx db cfg.ChainCfg.Name cfg.ProjectCfg.Name,
   Call.ordermanager_New ctx db kvStore cfg.ChainCfg.Name cfg.ProjectCfg.Name,
   Call.fmt_Println ("chainClient url:" ++ cfg.AnkrCfg.HttpsUrl ++ cfg.AnkrCfg.ApiKey),
   Call.chainclient_New (goInt cfg.ChainCfg.ID) (cfg.AnkrCfg.HttpsUrl ++ cfg.AnkrCfg.ApiKey)]

/-- The function `New(ctx, cfg)`. -/
def New (env : Env) (ctx : Context) (cfg : config.Config) : NewResult :=
  let kvConf := buildKvConf cfg.Kv.Redis
  let kvStore := xkv.NewStore kvConf
  let db := model.NewDB cfg.DB
  let collectionFilter := collectionfilter.New ctx db cfg.ChainCfg.Name cfg.ProjectCfg.Name
  let orderManager := ordermanager.New ctx db kvStore cfg.ChainCfg.Name cfg.ProjectCfg.Name
  let out := "chainClient url:" ++ cfg.AnkrCfg.HttpsUrl ++ cfg.AnkrCfg.ApiKey ++ "\n"
  let calls := callsUpToClient ctx cfg
  let (chainClient, err) :=
    chainclient.New env (goInt cfg.ChainCfg.ID) (cfg.AnkrCfg.HttpsUrl ++ cfg.AnkrCfg.ApiKey)
  if err.isSome then
    { svc := none, err := errors.Wrap err "failed on create evm client",
      calls := calls, stdout := out }
  else
    let supported := supportedChain env cfg
    let orderbookSyncer : Option orderbookindexer.Service :=
      if supported then
        some (orderbookindexer.New ctx cfg db kvStore chainClient cfg.ChainCfg.ID
          cfg.ChainCfg.Name orderManager)
      else none
    let calls :=
      if supported then
        calls ++ [Call.orderbookindexer_New ctx cfg db kvStore chainClient cfg.ChainCfg.ID
          cfg.ChainCfg.Name orderManager]
      else calls
    if err.isSome then
      { svc := none, err := errors.Wrap err "failed on create trade info server",
        calls := calls, stdout := out }
    else
      { svc := some
          { ctx := ctx, config := cfg, db := db, kvStore := kvStore,
            collectionFilter := collectionFilter, orderbookIndexer := orderbookSyncer,
            orderManager := orderManager, wg := { counter := 0 } },
        err := none, calls := calls, stdout := out }

/-- What a run of `Start` produces: the returned error, the collaborator calls made,
and the service afterwards. -/
structure StartResult where
  err : Option GoError
  calls : List Call
  svc : Service

/-- The method `(s *Service) Start()`. -/
def Service.Start (env : Env) (s : Service) : StartResult :=
  let err := env.PreloadCollections s.collectionFilter
  if err.isSome then
    { err := errors.Wrap err "failed on preload collection to filter",
      calls := [Call.PreloadCollections s.collectionFilter], svc := s }
  else
    { err := none,
      calls := [Call.PreloadCollections s.collectionFilter,
                Call.orderbookIndexer_Start s.orderbookIndexer,
                Call.orderManager_Start s.orderManager],
      svc := s }

/-- The number of background loops launched by a sequence of calls. -/
def loopsLaunched (calls : List Call) : Nat := calls.countP Call.launchesLoop

/-! ## Sample inputs -/

/-- An environment with the chain constants 1, 10 and 11155111 in which the chain
client is always built and the preload always succeeds. -/
def sampleEnv : Env :=
  { EthChainID := 1, OptimismChainID := 10, SepoliaChainID := 11155111,
    chainclientErr := fun _ _ => none, PreloadCollections := fun _ => none }

/-- The error a failing collaborator returns in the samples. -/
def sampleFailure : GoError := GoError.leaf "store unreachable"

/-- As `sampleEnv`, with a failing preload. -/
def preloadFailEnv : Env :=
  { sampleEnv with PreloadCollections := fun _ => some sampleFailure }

/-- As `sampleEnv`, with a failing chain-client construction. -/
def clientFailEnv : Env :=
  { sampleEnv with chainclientErr := fun _ _ => some sampleFailure }

/-- A configuration with two cache nodes, for the chain with the given id. -/
def sampleCfg (chainID : Int) : config.Config :=
  { Kv := { Redis := [{ Host := "10.0.0.1:6379", Typ := "node", Pass := "p1" },
                      { Host := "10.0.0.2:6379", Typ := "cluster", Pass := "p2" }] },
    DB := { raw := "dsn" },
    ChainCfg := { Name := "eth", ID := chainID },
    ProjectCfg := { Name := "EasySwap" },
    AnkrCfg := { HttpsUrl := "https://rpc.example/eth/", ApiKey := "k1" } }

/-- The configuration `sampleCfg chainID` with another API credential and nothing else
changed. -/
def sampleCfgOtherKey (chainID : Int) : config.Config :=
  { sampleCfg chainID with
    AnkrCfg := { HttpsUrl := (sampleCfg chainID).AnkrCfg.HttpsUrl, ApiKey := "k2" } }

/-- The caller's context in the samples. -/
def sampleCtx : Context := { ident := 7 }

/-- The service `New` builds from `sampleCfg`. -/
def sampleService (chainID : Int) : Service :=
  { ctx := sampleCtx, config := sampleCfg chainID,
    db := model.NewDB (sampleCfg chainID).DB,
    kvStore := xkv.NewStore (buildKvConf (sampleCfg chainID).Kv.Redis),
    collectionFilter :=
      collectionfilter.New sampleCtx (model.NewDB (sampleCfg chainID).DB) "eth" "EasySwap",
    orderbookIndexer := none,
    orderManager :=
      ordermanager.New sampleCtx (model.NewDB (sampleCfg chainID).DB)
        (xkv.NewStore (buildKvConf (sampleCfg chainID).Kv.Redis)) "eth" "EasySwap",
    wg := { counter := 0 } }

/-! ## Auxiliary facts -/

theorem foldl_append_singleton {α β : Type} (f : α → β) (xs : List α) (acc : List β) :
    xs.foldl (fun kvConf con => kvConf ++ [f con]) acc = acc ++ xs.map f := by
  induction xs generalizing acc with
  | nil => simp
  | cons x xs ih => simp [List.foldl_cons, ih]

theorem buildKvConf_eq_map (nodes : List config.KvRedis) :
    buildKvConf nodes =
      nodes.map (fun con =>
        ({ RedisConf := { Host := con.Host, Typ := con.Typ, Pass := con.Pass },
           Weight := 2 } : cache.NodeConf)) := by
  unfold buildKvConf
  rw [foldl_append_singleton]
  simp

theorem string_append_left_cancel (a x y : String) : a ++ x = a ++ y ↔ x = y := by
  constructor
  · intro h
    have h2 := congrArg String.data h
    simp only [String.data_append] at h2
    exact String.ext (List.append_cancel_left h2)
  · intro h
    rw [h]

theorem string_append_right_cancel (x y c : String) : x ++ c = y ++ c ↔ x = y := by
  constructor
  · intro h
    have h2 := congrArg String.data h
    simp only [String.data_append] at h2
    exact String.ext (List.append_cancel_right h2)
  · intro h
    rw [h]

theorem Start_of_preload_err (env : Env) (s : Service) (e : GoError)
    (h : env.PreloadCollections s.collectionFilter = some e) :
    s.Start env =
      { err := some (GoError.withMessage e "failed on preload collection to filter"),
        calls := [Call.PreloadCollections s.collectionFilter], svc := s } := by
  simp [Service.Start, h, errors.Wrap]

theorem Start_of_preload_ok (env : Env) (s : Service)
    (h : env.PreloadCollections s.collectionFilter = none) :
    s.Start env =
      { err := none,
        calls := [Call.PreloadCollections s.collectionFilter,
                  Call.orderbookIndexer_Start s.orderbookIndexer,
                  Call.orderManager_Start s.orderManager],
        svc := s } := by
  simp [Service.Start, h]

theorem New_of_client_err (env : Env) (ctx : Context) (cfg : config.Config) (e : GoError)
    (h : env.chainclientErr (goInt cfg.ChainCfg.ID)
      (cfg.AnkrCfg.HttpsUrl ++ cfg.AnkrCfg.ApiKey) = some e) :
    New env ctx cfg =
      { svc := none, err := some (GoError.withMessage e "failed on create evm client"),
        calls := callsUpToClient ctx cfg,
        stdout := "chainClient url:" ++ cfg.AnkrCfg.HttpsUrl ++ cfg.AnkrCfg.ApiKey ++ "\n" } := by
  simp [New, chainclient.New, h, errors.Wrap]

theorem New_of_client_ok_supported (env : Env) (ctx : Context) (cfg : config.Config)
    (h : env.chainclientErr (goInt cfg.ChainCfg.ID)
      (cfg.AnkrCfg.HttpsUrl ++ cfg.AnkrCfg.ApiKey) = none)
    (hs : supportedChain env cfg) :
    New env ctx cfg =
      { svc := some
          { ctx := ctx, config := cfg, db := model.NewDB cfg.DB,
            kvStore := xkv.NewStore (buildKvConf cfg.Kv.Redis),
            collectionFilter :=
              collectionfilter.New ctx (model.NewDB cfg.DB) cfg.ChainCfg.Name
                cfg.ProjectCfg.Name,
            orderbookIndexer :=
              some (orderbookindexer.New ctx cfg (model.NewDB cfg.DB)
                (xkv.NewStore (buildKvConf cfg.Kv.Redis))
                (some { chainID := goInt cfg.ChainCfg.ID,
                        nodeUrl := cfg.AnkrCfg.HttpsUrl ++ cfg.AnkrCfg.ApiKey })
                cfg.ChainCfg.ID cfg.ChainCfg.Name
                (ordermanager.New ctx (model.NewDB cfg.DB)
                  (xkv.NewStore (buildKvConf cfg.Kv.Redis)) cfg.ChainCfg.Name
                  cfg.ProjectCfg.Name)),
            orderManager :=
              ordermanager.New ctx (model.NewDB cfg.DB)
                (xkv.NewStore (buildKvConf cfg.Kv.Redis)) cfg.ChainCfg.Name
                cfg.ProjectCfg.Name,
            wg := { counter := 0 } },
        err := none,
        calls := callsUpToClient ctx cfg ++
          [Call.orderbookindexer_New ctx cfg (model.NewDB cfg.DB)
            (xkv.NewStore (buildKvConf cfg.Kv.Redis))
            (some { chainID := goInt cfg.ChainCfg.ID,
                    nodeUrl := cfg.AnkrCfg.HttpsUrl ++ cfg.AnkrCfg.ApiKey })
            cfg.ChainCfg.ID cfg.ChainCfg.Name
            (ordermanager.New ctx (model.NewDB cfg.DB)
              (xkv.NewStore (buildKvConf cfg.Kv.Redis)) cfg.ChainCfg.Name
              cfg.ProjectCfg.Name)],
        stdout := "chainClient url:" ++ cfg.AnkrCfg.HttpsUrl ++ cfg.AnkrCfg.ApiKey ++ "\n" } := by
  simp [New, chainclient.New, h, hs]

theorem New_of_client_ok_unsupported (env : Env) (ctx : Context) (cfg : config.Config)
    (h : env.chainclientErr (goInt cfg.ChainCfg.ID)
      (cfg.AnkrCfg.HttpsUrl ++ cfg.AnkrCfg.ApiKey) = none)
    (hs : ¬ supportedChain env cfg) :
    New env ctx cfg =
      { svc := some
          { ctx := ctx, config := cfg, db := model.NewDB cfg.DB,
            kvStore := xkv.NewStore (buildKvConf cfg.Kv.Redis),
            collectionFilter :=
              collectionfilter.New ctx (model.NewDB cfg.DB) cfg.ChainCfg.Name
                cfg.ProjectCfg.Name,
            orderbookIndexer := none,
            orderManager :=
              ordermanager.New ctx (model.NewDB cfg.DB)
                (xkv.NewStore (buildKvConf cfg.Kv.Redis)) cfg.ChainCfg.Name
                cfg.ProjectCfg.Name,
            wg := { counter := 0 } },
        err := none,
        calls := callsUpToClient ctx cfg,
        stdout := "chainClient url:" ++ cfg.AnkrCfg.HttpsUrl ++ cfg.AnkrCfg.ApiKey ++ "\n" } := by
  simp [New, chainclient.New, h, hs]

theorem stdout_of_New (env : Env) (ctx : Context) (cfg : config.Config) :
    (New env ctx cfg).stdout =
      "chainClient url:" ++ cfg.AnkrCfg.HttpsUrl ++ cfg.AnkrCfg.ApiKey ++ "\n" := by
  cases h : env.chainclientErr (goInt cfg.ChainCfg.ID)
      (cfg.AnkrCfg.HttpsUrl ++ cfg.AnkrCfg.ApiKey) with
  | some e => rw [New_of_client_err env ctx cfg e h]
  | none =>
    by_cases hs : supportedChain env cfg
    · rw [New_of_client_ok_supported env ctx cfg h hs]
    · rw [New_of_client_ok_unsupported env ctx cfg h hs]

/-! ## Claims about `Start` -/

/-- C1: when `PreloadCollections` returns an error `e`, `Start` returns a non-nil
error whose cause is `e` and whose text is "failed on preload collection to filter"
followed by ": " and the text of `e`; the collaborator calls made are exactly
`[PreloadCollections]`, so neither the indexer nor the order manager is started. -/
theorem Start_preload_error_aborts (env : Env) (s : Service) (e : GoError)
    (h : env.PreloadCollections s.collectionFilter = some e) :
    (∃ w, (s.Start env).err = some w ∧ w.Cause = some e ∧
        w.Error = "failed on preload collection to filter" ++ (": " ++ e.Error)) ∧
      (s.Start env).calls = [Call.PreloadCollections s.collectionFilter] ∧
      (∀ c ∈ (s.Start env).calls, c.isStart = false) := by
  rw [Start_of_preload_err env s e h]
  refine ⟨⟨_, rfl, rfl, ?_⟩, rfl, ?_⟩
  · rw [GoError.Error, String.append_assoc]
  · intro c hc
    simp at hc
    subst hc
    rfl

theorem Start_preload_error_aborts_witness :
    (∃ w, ((sampleService 1).Start preloadFailEnv).err = some w ∧
        w.Cause = some sampleFailure ∧
        w.Error = "failed on preload collection to filter" ++ (": " ++ sampleFailure.Error)) ∧
      ((sampleService 1).Start preloadFailEnv).calls =
        [Call.PreloadCollections (sampleService 1).collectionFilter] ∧
      (∀ c ∈ ((sampleService 1).Start preloadFailEnv).calls, c.isStart = false) :=
  Start_preload_error_aborts preloadFailEnv (sampleService 1) sampleFailure rfl

/-- C2: when `PreloadCollections` succeeds, `Start` returns nil and the collaborator
calls it makes are exactly `[PreloadCollections, orderbookIndexer.Start,
orderManager.Start]`, each once; and in every run of `Start`, a `Start` call on the
indexer or the order manager is preceded in the calls by `PreloadCollections`, which
has returned nil. -/
theorem Start_sequence (env : Env) (s : Service) :
    (env.PreloadCollections s.collectionFilter = none →
      (s.Start env).err = none ∧
      (s.Start env).calls =
        [Call.PreloadCollections s.collectionFilter,
         Call.orderbookIndexer_Start s.orderbookIndexer,
         Call.orderManager_Start s.orderManager] ∧
      (s.Start env).calls.count (Call.PreloadCollections s.collectionFilter) = 1 ∧
      (s.Start env).calls.count (Call.orderbookIndexer_Start s.orderbookIndexer) = 1 ∧
      (s.Start env).calls.count (Call.orderManager_Start s.orderManager) = 1) ∧
    (∀ i c, (s.Start env).calls.get? i = some c → c.isStart = true →
      env.PreloadCollections s.collectionFilter = none ∧
      Call.PreloadCollections s.collectionFilter ∈ (s.Start env).calls.take i) := by
  constructor
  · intro h
    rw [Start_of_preload_ok env s h]
    simp [List.count_cons]
  · intro i c hi hc
    cases h : env.PreloadCollections s.collectionFilter with
    | some e =>
      rw [Start_of_preload_err env s e h] at hi
      match i, hi with
      | 0, hi =>
        simp at hi
        subst hi
        simp [Call.isStart] at hc
      | n + 1, hi => simp at hi
    | none =>
      rw [Start_of_preload_ok env s h] at hi ⊢
      match i, hi with
      | 0, hi =>
        simp at hi
        subst hi
        simp [Call.isStart] at hc
      | n + 1, hi => simp

theorem Start_sequence_witness :
    ((sampleService 1).Start sampleEnv).err = none ∧
      ((sampleService 1).Start sampleEnv).calls =
        [Call.PreloadCollections (sampleService 1).collectionFilter,
         Call.orderbookIndexer_Start (sampleService 1).orderbookIndexer,
         Call.orderManager_Start (sampleService 1).orderManager] ∧
      ((sampleService 1).Start sampleEnv).calls.count
        (Call.PreloadCollections (sampleService 1).collectionFilter) = 1 ∧
      ((sampleService 1).Start sampleEnv).calls.count
        (Call.orderbookIndexer_Start (sampleService 1).orderbookIndexer) = 1 ∧
      ((sampleService 1).Start sampleEnv).calls.count
        (Call.orderManager_Start (sampleService 1).orderManager) = 1 :=
  (Start_sequence sampleEnv (sampleService 1)).1 rfl

/-! ## Claims about `New` -/

/-- C4: when the chain client is built, `New` returns a service and no error; the
indexer constructor is called, once, and its result stored in `orderbookIndexer`,
if and only if the chain id is `EthChainID`, `OptimismChainID` or `SepoliaChainID`;
for every other chain id the constructor is not called and the field is nil. -/
theorem New_indexer_iff_supported (env : Env) (ctx : Context) (cfg : config.Config)
    (h : env.chainclientErr (goInt cfg.ChainCfg.ID)
      (cfg.AnkrCfg.HttpsUrl ++ cfg.AnkrCfg.ApiKey) = none) :
    (New env ctx cfg).err = none ∧
    ∃ svc, (New env ctx cfg).svc = some svc ∧
      ((∃ c ∈ (New env ctx cfg).calls, c.isIndexerNew = true) ↔ supportedChain env cfg) ∧
      (svc.orderbookIndexer.isSome = true ↔ supportedChain env cfg) ∧
      (supportedChain env cfg →
        (New env ctx cfg).calls.countP Call.isIndexerNew = 1 ∧
        ∃ ix, svc.orderbookIndexer = some ix ∧
          Call.orderbookindexer_New ix.ctx ix.cfg ix.db ix.kvStore ix.chainClient ix.chainId
            ix.chain ix.orderManager ∈ (New env ctx cfg).calls) ∧
      (¬ supportedChain env cfg →
        svc.orderbookIndexer = none ∧
        ∀ c ∈ (New env ctx cfg).calls, c.isIndexerNew = false) := by
  by_cases hs : supportedChain env cfg
  · rw [New_of_client_ok_supported env ctx cfg h hs]
    simp [hs, callsUpToClient, Call.isIndexerNew, orderbookindexer.New, List.countP_cons]
  · rw [New_of_client_ok_unsupported env ctx cfg h hs]
    simp [hs, callsUpToClient, Call.isIndexerNew]

theorem New_indexer_iff_supported_witness :
    (New sampleEnv sampleCtx (sampleCfg 10)).err = none ∧
      (New sampleEnv sampleCtx (sampleCfg 10)).calls.countP Call.isIndexerNew = 1 ∧
      (New sampleEnv sampleCtx (sampleCfg 99999)).err = none ∧
      (∀ c ∈ (New sampleEnv sampleCtx (sampleCfg 99999)).calls, c.isIndexerNew = false) := by
  obtain ⟨h1, svc, _, _, _, h5, _⟩ :=
    New_indexer_iff_supported sampleEnv sampleCtx (sampleCfg 10) rfl
  obtain ⟨k1, svc2, _, _, _, _, k6⟩ :=
    New_indexer_iff_supported sampleEnv sampleCtx (sampleCfg 99999) rfl
  exact ⟨h1, (h5 (by decide)).1, k1, (k6 (by decide)).2⟩

/-- C3 (the code at the failing input): for a chain id outside the three supported
ones, with the chain client built, `New` returns a service whose `orderbookIndexer` is
nil; when the preload succeeds, `Start` on that service returns nil, and the calls it
makes include `orderbookIndexer.Start` on the nil indexer, between the preload and
`orderManager.Start`: `Start` makes the call without looking at the field. -/
theorem Start_calls_absent_indexer (env : Env) (ctx : Context) (cfg : config.Config)
    (hc : env.chainclientErr (goInt cfg.ChainCfg.ID)
      (cfg.AnkrCfg.HttpsUrl ++ cfg.AnkrCfg.ApiKey) = none)
    (hs : ¬ supportedChain env cfg) :
    ∃ svc, (New env ctx cfg).svc = some svc ∧ (New env ctx cfg).err = none ∧
      svc.orderbookIndexer = none ∧
      (env.PreloadCollections svc.collectionFilter = none →
        (svc.Start env).err = none ∧
        (svc.Start env).calls =
          [Call.PreloadCollections svc.collectionFilter,
           Call.orderbookIndexer_Start none,
           Call.orderManager_Start svc.orderManager]) := by
  rw [New_of_client_ok_unsupported env ctx cfg hc hs]
  refine ⟨_, rfl, rfl, rfl, ?_⟩
  intro hp
  rw [Start_of_preload_ok env _ hp]
  exact ⟨rfl, rfl⟩

theorem Start_calls_absent_indexer_witness :
    ∃ svc, (New sampleEnv sampleCtx (sampleCfg 99999)).svc = some svc ∧
      svc.orderbookIndexer = none ∧
      (svc.Start sampleEnv).err = none ∧
      (svc.Start sampleEnv).calls =
        [Call.PreloadCollections svc.collectionFilter,
         Call.orderbookIndexer_Start none,
         Call.orderManager_Start svc.orderManager] := by
  obtain ⟨svc, h1, _, h3, h4⟩ :=
    Start_calls_absent_indexer sampleEnv sampleCtx (sampleCfg 99999) rfl (by decide)
  exact ⟨svc, h1, h3, h4 rfl⟩

/-- C5: `New` returns a non-nil error if and only if `chainclient.New` returns an
error; when it returns the error `e`, `New` returns a nil service and the error that
wraps `e` with "failed on create evm client", and the indexer constructor is not
called; and in every run `New` makes no `Start` and no `PreloadCollections` call. -/
theorem New_error_iff_client_error (env : Env) (ctx : Context) (cfg : config.Config) :
    ((New env ctx cfg).err ≠ none ↔
      env.chainclientErr (goInt cfg.ChainCfg.ID)
        (cfg.AnkrCfg.HttpsUrl ++ cfg.AnkrCfg.ApiKey) ≠ none) ∧
    (∀ e, env.chainclientErr (goInt cfg.ChainCfg.ID)
        (cfg.AnkrCfg.HttpsUrl ++ cfg.AnkrCfg.ApiKey) = some e →
      (New env ctx cfg).svc = none ∧
      (∃ w, (New env ctx cfg).err = some w ∧ w.Cause = some e ∧
        w.Error = "failed on create evm client" ++ (": " ++ e.Error)) ∧
      (∀ c ∈ (New env ctx cfg).calls, c.isIndexerNew = false)) ∧
    (∀ c ∈ (New env ctx cfg).calls, c.isLifecycle = false) := by
  cases h : env.chainclientErr (goInt cfg.ChainCfg.ID)
      (cfg.AnkrCfg.HttpsUrl ++ cfg.AnkrCfg.ApiKey) with
  | some e =>
    rw [New_of_client_err env ctx cfg e h]
    refine ⟨by simp, ?_, by simp [callsUpToClient, Call.isLifecycle]⟩
    intro e2 he2
    cases he2
    refine ⟨rfl, ⟨_, rfl, rfl, ?_⟩, by simp [callsUpToClient, Call.isIndexerNew]⟩
    rw [GoError.Error, String.append_assoc]
  | none =>
    by_cases hs : supportedChain env cfg
    · rw [New_of_client_ok_supported env ctx cfg h hs]
      simp [callsUpToClient, Call.isLifecycle]
    · rw [New_of_client_ok_unsupported env ctx cfg h hs]
      simp [callsUpToClient, Call.isLifecycle]

theorem New_error_iff_client_error_witness :
    (New clientFailEnv sampleCtx (sampleCfg 1)).svc = none ∧
      (∃ w, (New clientFailEnv sampleCtx (sampleCfg 1)).err = some w ∧
        w.Cause = some sampleFailure ∧
        w.Error = "failed on create evm client" ++ (": " ++ sampleFailure.Error)) ∧
      (∀ c ∈ (New clientFailEnv sampleCtx (sampleCfg 1)).calls, c.isIndexerNew = false) :=
  (New_error_iff_client_error clientFailEnv sampleCtx (sampleCfg 1)).2.1 sampleFailure rfl

/-- C6: the node configuration `New` passes to `xkv.NewStore` has one entry per
descriptor of `cfg.Kv.Redis`, in the same order: at every index the entry carries the
host, type and credential of the descriptor at that index and the weight 2, and past
the last descriptor there is no entry; the weight of every entry is 2, which is
positive. -/
theorem New_kvConf_mirrors_nodes (env : Env) (ctx : Context) (cfg : config.Config) :
    ∃ kvConf : kv.KvConf,
      (∀ c, Call.xkv_NewStore c ∈ (New env ctx cfg).calls ↔ c = kvConf) ∧
      kvConf.length = cfg.Kv.Redis.length ∧
      (∀ i : Nat, kvConf[i]? =
        (cfg.Kv.Redis[i]?).map (fun con =>
          ({ RedisConf := { Host := con.Host, Typ := con.Typ, Pass := con.Pass },
             Weight := 2 } : cache.NodeConf))) ∧
      (∀ n ∈ kvConf, n.Weight = 2 ∧ 0 < n.Weight) := by
  refine ⟨buildKvConf cfg.Kv.Redis, ?_, ?_, ?_, ?_⟩
  · intro c
    cases h : env.chainclientErr (goInt cfg.ChainCfg.ID)
        (cfg.AnkrCfg.HttpsUrl ++ cfg.AnkrCfg.ApiKey) with
    | some e =>
      rw [New_of_client_err env ctx cfg e h]
      simp [callsUpToClient, eq_comm]
    | none =>
      by_cases hs : supportedChain env cfg
      · rw [New_of_client_ok_supported env ctx cfg h hs]
        simp [callsUpToClient, eq_comm]
      · rw [New_of_client_ok_unsupported env ctx cfg h hs]
        simp [callsUpToClient, eq_comm]
  · rw [buildKvConf_eq_map, List.length_map]
  · intro i
    rw [buildKvConf_eq_map, List.getElem?_map]
  · intro n hn
    rw [buildKvConf_eq_map, List.mem_map] at hn
    obtain ⟨con, _, rfl⟩ := hn
    exact ⟨rfl, show (0 : Int) < 2 by decide⟩

theorem New_kvConf_mirrors_nodes_witness :
    ∃ kvConf : kv.KvConf,
      Call.xkv_NewStore kvConf ∈ (New sampleEnv sampleCtx (sampleCfg 1)).calls ∧
      kvConf.length = 2 ∧
      kvConf[1]? =
        some { RedisConf := { Host := "10.0.0.2:6379", Typ := "cluster", Pass := "p2" },
               Weight := 2 } ∧
      (∀ n ∈ kvConf, n.Weight = 2 ∧ 0 < n.Weight) := by
  obtain ⟨kvConf, h1, h2, h3, h4⟩ :=
    New_kvConf_mirrors_nodes sampleEnv sampleCtx (sampleCfg 1)
  exact ⟨kvConf, (h1 kvConf).2 rfl, h2, h3 1, h4⟩

/-- C7: the one call `New` makes to `chainclient.New` has as its first argument the
chain id converted to `int` (the chain id itself whenever it fits in 64 bits) and as
its address `cfg.AnkrCfg.HttpsUrl ++ cfg.AnkrCfg.ApiKey`; with an empty credential the
address is the base URL. -/
theorem New_endpoint_is_concatenation (env : Env) (ctx : Context) (cfg : config.Config) :
    (∀ chainID nodeUrl, Call.chainclient_New chainID nodeUrl ∈ (New env ctx cfg).calls ↔
      chainID = goInt cfg.ChainCfg.ID ∧
        nodeUrl = cfg.AnkrCfg.HttpsUrl ++ cfg.AnkrCfg.ApiKey) ∧
    (-(2 ^ 63) ≤ cfg.ChainCfg.ID → cfg.ChainCfg.ID < 2 ^ 63 →
      Call.chainclient_New cfg.ChainCfg.ID (cfg.AnkrCfg.HttpsUrl ++ cfg.AnkrCfg.ApiKey) ∈
        (New env ctx cfg).calls) ∧
    (cfg.AnkrCfg.ApiKey = "" →
      ∀ chainID nodeUrl, Call.chainclient_New chainID nodeUrl ∈ (New env ctx cfg).calls →
        nodeUrl = cfg.AnkrCfg.HttpsUrl) := by
  have key : ∀ chainID nodeUrl,
      Call.chainclient_New chainID nodeUrl ∈ (New env ctx cfg).calls ↔
        chainID = goInt cfg.ChainCfg.ID ∧
          nodeUrl = cfg.AnkrCfg.HttpsUrl ++ cfg.AnkrCfg.ApiKey := by
    intro chainID nodeUrl
    cases h : env.chainclientErr (goInt cfg.ChainCfg.ID)
        (cfg.AnkrCfg.HttpsUrl ++ cfg.AnkrCfg.ApiKey) with
    | some e =>
      rw [New_of_client_err env ctx cfg e h]
      simp [callsUpToClient]
    | none =>
      by_cases hs : supportedChain env cfg
      · rw [New_of_client_ok_supported env ctx cfg h hs]
        simp [callsUpToClient]
      · rw [New_of_client_ok_unsupported env ctx cfg h hs]
        simp [callsUpToClient]
  refine ⟨key, ?_, ?_⟩
  · intro hlo hhi
    rw [key]
    refine ⟨?_, rfl⟩
    unfold goInt
    rw [Int.emod_eq_of_lt (by omega) (by omega)]
    omega
  · intro hk chainID nodeUrl hmem
    rw [key] at hmem
    rw [hmem.2, hk]
    exact String.append_empty _

theorem New_endpoint_is_concatenation_witness :
    Call.chainclient_New 11155111 "https://rpc.example/eth/k1" ∈
        (New sampleEnv sampleCtx (sampleCfg 11155111)).calls ∧
      (∀ chainID nodeUrl,
        Call.chainclient_New chainID nodeUrl ∈
            (New sampleEnv sampleCtx
              { sampleCfg 1 with AnkrCfg := { HttpsUrl := "https://rpc.example/", ApiKey := "" } }).calls →
          nodeUrl = "https://rpc.example/") :=
  ⟨(New_endpoint_is_concatenation sampleEnv sampleCtx (sampleCfg 11155111)).2.1
      (by decide) (by decide),
   (New_endpoint_is_concatenation sampleEnv sampleCtx
      { sampleCfg 1 with AnkrCfg := { HttpsUrl := "https://rpc.example/", ApiKey := "" } }).2.2
      rfl⟩

/-- C8 (the claim fails): two configurations that differ only in the API credential
make `New` print different text, and the text printed is the assembled endpoint URL,
credential included. -/
theorem New_stdout_shows_ApiKey :
    (sampleCfgOtherKey 1).Kv = (sampleCfg 1).Kv ∧
      (sampleCfgOtherKey 1).DB = (sampleCfg 1).DB ∧
      (sampleCfgOtherKey 1).ChainCfg = (sampleCfg 1).ChainCfg ∧
      (sampleCfgOtherKey 1).ProjectCfg = (sampleCfg 1).ProjectCfg ∧
      (sampleCfgOtherKey 1).AnkrCfg.HttpsUrl = (sampleCfg 1).AnkrCfg.HttpsUrl ∧
      (New sampleEnv sampleCtx (sampleCfg 1)).stdout ≠
        (New sampleEnv sampleCtx (sampleCfgOtherKey 1)).stdout ∧
      (New sampleEnv sampleCtx (sampleCfg 1)).stdout =
        "chainClient url:https://rpc.example/eth/" ++ (sampleCfg 1).AnkrCfg.ApiKey ++ "\n" := by
  decide

/-- C8 (amended): `New` prints the assembled endpoint URL verbatim. The text it
writes to standard output is "chainClient url:" followed by the base URL, the API
credential and a line end, whatever the collaborators do; so for two configurations
with the same base URL the printed text is the same exactly when the credentials are
the same. -/
theorem New_stdout_is_endpoint (env : Env) (ctx : Context) (cfg : config.Config) :
    (New env ctx cfg).stdout =
        "chainClient url:" ++ cfg.AnkrCfg.HttpsUrl ++ cfg.AnkrCfg.ApiKey ++ "\n" ∧
    (∀ (env2 : Env) (ctx2 : Context) (cfg2 : config.Config),
      cfg2.AnkrCfg.HttpsUrl = cfg.AnkrCfg.HttpsUrl →
        ((New env2 ctx2 cfg2).stdout = (New env ctx cfg).stdout ↔
          cfg2.AnkrCfg.ApiKey = cfg.AnkrCfg.ApiKey)) := by
  refine ⟨stdout_of_New env ctx cfg, ?_⟩
  intro env2 ctx2 cfg2 hurl
  rw [stdout_of_New, stdout_of_New, hurl, string_append_right_cancel, string_append_left_cancel]

theorem New_stdout_is_endpoint_witness :
    ((New clientFailEnv sampleCtx (sampleCfgOtherKey 10)).stdout =
        (New sampleEnv sampleCtx (sampleCfg 1)).stdout ↔
      (sampleCfgOtherKey 10).AnkrCfg.ApiKey = (sampleCfg 1).AnkrCfg.ApiKey) :=
  (New_stdout_is_endpoint sampleEnv sampleCtx (sampleCfg 1)).2 clientFailEnv sampleCtx
    (sampleCfgOtherKey 10) rfl

/-- C9 (the claim fails): on a supported chain, with the preload succeeding, `Start`
returns nil and launches two loops, and the count of `wg` afterwards is 0. -/
theorem Start_leaves_wg_at_zero :
    ∃ svc, (New sampleEnv sampleCtx (sampleCfg 1)).svc = some svc ∧
      (svc.Start sampleEnv).err = none ∧
      loopsLaunched (svc.Start sampleEnv).calls = 2 ∧
      (svc.Start sampleEnv).svc.wg.counter = 0 ∧
      (svc.Start sampleEnv).svc.wg.counter ≠ loopsLaunched (svc.Start sampleEnv).calls := by
  refine ⟨_, rfl, ?_, ?_, ?_, ?_⟩ <;> decide

/-- C9 (amended): the `wg` of a service returned by `New` has count 0, and `Start`
never changes it: after a failed `Start`, which launches no loop, and after a
successful `Start`, which launches one loop for the order manager plus one for the
indexer when present, the count is still 0. -/
theorem Start_never_touches_wg (env : Env) (ctx : Context) (cfg : config.Config)
    (svc : Service) (h : (New env ctx cfg).svc = some svc) (env2 : Env) :
    svc.wg.counter = 0 ∧
    (svc.Start env2).svc.wg.counter = 0 ∧
    ((svc.Start env2).err ≠ none → loopsLaunched (svc.Start env2).calls = 0) ∧
    ((svc.Start env2).err = none →
      loopsLaunched (svc.Start env2).calls =
        1 + (if svc.orderbookIndexer.isSome then 1 else 0)) := by
  have hwg : svc.wg.counter = 0 := by
    cases hc : env.chainclientErr (goInt cfg.ChainCfg.ID)
        (cfg.AnkrCfg.HttpsUrl ++ cfg.AnkrCfg.ApiKey) with
    | some e =>
      rw [New_of_client_err env ctx cfg e hc] at h
      simp at h
    | none =>
      by_cases hs : supportedChain env cfg
      · rw [New_of_client_ok_supported env ctx cfg hc hs] at h
        simp only [Option.some.injEq] at h
        rw [← h]
      · rw [New_of_client_ok_unsupported env ctx cfg hc hs] at h
        simp only [Option.some.injEq] at h
        rw [← h]
  refine ⟨hwg, ?_⟩
  cases hp : env2.PreloadCollections svc.collectionFilter with
  | some e =>
    rw [Start_of_preload_err env2 svc e hp]
    simp [hwg, loopsLaunched, Call.launchesLoop]
  | none =>
    rw [Start_of_preload_ok env2 svc hp]
    cases hix : svc.orderbookIndexer with
    | none => simp [hwg, loopsLaunched, Call.launchesLoop, List.countP_cons]
    | some ix => simp [hwg, loopsLaunched, Call.launchesLoop, List.countP_cons]

theorem Start_never_touches_wg_witness :
    (sampleService 99999).wg.counter = 0 ∧
      ((sampleService 99999).Start sampleEnv).svc.wg.counter = 0 ∧
      loopsLaunched ((sampleService 99999).Start sampleEnv).calls = 1 ∧
      loopsLaunched ((sampleService 99999).Start preloadFailEnv).calls = 0 := by
  have h := Start_never_touches_wg sampleEnv sampleCtx (sampleCfg 99999)
    (sampleService 99999) (by decide)
  exact ⟨(h sampleEnv).1, (h sampleEnv).2.1, (h sampleEnv).2.2.2 rfl,
    (h preloadFailEnv).2.2.1 (by decide)⟩

/-- C10: every constructor call `New` makes that takes a context is given the
caller's context, every one that takes a database handle is given the handle returned
by `model.NewDB(cfg.DB)`, and every one that takes a cache handle is given the handle
returned by `xkv.NewStore`; the filter and the order manager are built in every run
and the indexer constructor, when called, is among these calls; the returned service
stores the same context and the same two handles. -/
theorem New_threads_context_and_handles (env : Env) (ctx : Context) (cfg : config.Config) :
    (∀ c ∈ (New env ctx cfg).calls, ∀ x, c.ctxArg = some x → x = ctx) ∧
    (∀ c ∈ (New env ctx cfg).calls, ∀ d, c.dbArg = some d → d = model.NewDB cfg.DB) ∧
    (∀ c ∈ (New env ctx cfg).calls, ∀ k, c.kvArg = some k →
      k = xkv.NewStore (buildKvConf cfg.Kv.Redis)) ∧
    Call.xkv_NewStore (buildKvConf cfg.Kv.Redis) ∈ (New env ctx cfg).calls ∧
    Call.model_NewDB cfg.DB ∈ (New env ctx cfg).calls ∧
    Call.collectionfilter_New ctx (model.NewDB cfg.DB) cfg.ChainCfg.Name cfg.ProjectCfg.Name ∈
      (New env ctx cfg).calls ∧
    Call.ordermanager_New ctx (model.NewDB cfg.DB) (xkv.NewStore (buildKvConf cfg.Kv.Redis))
      cfg.ChainCfg.Name cfg.ProjectCfg.Name ∈ (New env ctx cfg).calls ∧
    (∀ svc, (New env ctx cfg).svc = some svc →
      svc.ctx = ctx ∧ svc.db = model.NewDB cfg.DB ∧
      svc.kvStore = xkv.NewStore (buildKvConf cfg.Kv.Redis) ∧
      svc.collectionFilter =
        collectionfilter.New ctx (model.NewDB cfg.DB) cfg.ChainCfg.Name cfg.ProjectCfg.Name ∧
      svc.orderManager =
        ordermanager.New ctx (model.NewDB cfg.DB) (xkv.NewStore (buildKvConf cfg.Kv.Redis))
          cfg.ChainCfg.Name cfg.ProjectCfg.Name ∧
      (∀ ix, svc.orderbookIndexer = some ix →
        ix.ctx = ctx ∧ ix.db = svc.db ∧ ix.kvStore = svc.kvStore ∧
        ix.orderManager = svc.orderManager ∧
        Call.orderbookindexer_New ctx cfg svc.db svc.kvStore ix.chainClient cfg.ChainCfg.ID
          cfg.ChainCfg.Name svc.orderManager ∈ (New env ctx cfg).calls)) := by
  cases hc : env.chainclientErr (goInt cfg.ChainCfg.ID)
      (cfg.AnkrCfg.HttpsUrl ++ cfg.AnkrCfg.ApiKey) with
  | some e =>
    rw [New_of_client_err env ctx cfg e hc]
    simp [callsUpToClient, Call.ctxArg, Call.dbArg, Call.kvArg]
  | none =>
    by_cases hs : supportedChain env cfg
    · rw [New_of_client_ok_supported env ctx cfg hc hs]
      simp [callsUpToClient, Call.ctxArg, Call.dbArg, Call.kvArg, orderbookindexer.New]
    · rw [New_of_client_ok_unsupported env ctx cfg hc hs]
      simp [callsUpToClient, Call.ctxArg, Call.dbArg, Call.kvArg]

theorem New_threads_context_and_handles_witness :
    ∃ svc ix, (New sampleEnv sampleCtx (sampleCfg 1)).svc = some svc ∧
      svc.orderbookIndexer = some ix ∧
      svc.ctx = sampleCtx ∧ ix.ctx = sampleCtx ∧ ix.db = svc.db ∧ ix.kvStore = svc.kvStore ∧
      (∀ c ∈ (New sampleEnv sampleCtx (sampleCfg 1)).calls, ∀ x,
        c.ctxArg = some x → x = sampleCtx) := by
  have h := New_threads_context_and_handles sampleEnv sampleCtx (sampleCfg 1)
  have hs := h.2.2.2.2.2.2.2 _ rfl
  have hi := hs.2.2.2.2.2 _ rfl
  exact ⟨_, _, rfl, rfl, hs.1, hi.1, hi.2.1, hi.2.2.1, h.1⟩

end EasySwapSync
